import Mathlib

/-!
Shallow embedding of the SGP41 gas-sensor driver (sgp41.c / sgp41.h) and
verification of its specification.

The driver is a request/response codec over an I2C bus: it serializes a
16-bit command opcode plus an optional CRC-protected payload, waits a fixed
delay, reads a fixed-size response organized in (2 data bytes + 1 CRC byte)
triplets, validates each triplet with CRC-8 (polynomial 0x31, init 0xFF),
and decodes big-endian 16-bit words.

Machine integers are modelled as `Nat` with explicit `% 2^w` truncation at
exactly the places where the C code's unsigned types truncate.  The bus
primitives (`i2c_master_transmit` / `i2c_master_receive`), which are
external collaborators, are modelled by a `Bus` record giving the outcome
of the single write, the outcome of the single read, and the byte stream
the read returns.  Out-pointer parameters are modelled by passing the
initial contents of the caller's location and returning its final contents.
-/

namespace SGP41

/-! ## Constants from sgp41.h and sgp41.c -/

/-- `#define CRC8_POLYNOMIAL 0x31` (sgp41.c). -/
def CRC8_POLYNOMIAL : Nat := 0x31

/-- `#define CRC8_INIT 0xFF` (sgp41.c). -/
def CRC8_INIT : Nat := 0xFF

/-- `#define SPG41_EXECUTE_CONDITIONING_CMD 0x2612` (sgp41.h). -/
def SPG41_EXECUTE_CONDITIONING_CMD : Nat := 0x2612

/-- `#define SPG41_MESASURE_RAW_SIGNALS_CMD 0x2619` (sgp41.h). -/
def SPG41_MESASURE_RAW_SIGNALS_CMD : Nat := 0x2619

/-- `#define SPG41_EXECUTE_SELF_TEST_CMD 0x280E` (sgp41.h). -/
def SPG41_EXECUTE_SELF_TEST_CMD : Nat := 0x280E

/-- `#define SPG41_TURN_HEATER_FF_CMD 0x3615` (sgp41.h). -/
def SPG41_TURN_HEATER_FF_CMD : Nat := 0x3615

/-- `#define SPG41_GET_SERIAL_NUMBER_CMD 0x3682` (sgp41.h). -/
def SPG41_GET_SERIAL_NUMBER_CMD : Nat := 0x3682

/-- ESP-IDF success code `ESP_OK` (= 0). -/
def ESP_OK : Int := 0

/-- ESP-IDF failure code `ESP_FAIL` (= -1). -/
def ESP_FAIL : Int := -1

/-! ## CRC-8 (generate_crc / check_crc, sgp41.c lines 402-432)

`crc` in the C code has type `uint8_t`; every assignment to it truncates
to 8 bits, which the embedding makes explicit with `% 256`. -/

/-- One iteration of the inner bit loop of `generate_crc`:
`if (crc & 0x80) crc = (crc << 1) ^ CRC8_POLYNOMIAL; else crc = (crc << 1);`
with the implicit `uint8_t` truncation on assignment. -/
def crc_round (crc : Nat) : Nat :=
  if crc &&& 0x80 ≠ 0 then ((crc <<< 1) ^^^ CRC8_POLYNOMIAL) % 256
  else (crc <<< 1) % 256

/-- The inner loop `for (crc_bit = 8; crc_bit > 0; --crc_bit)` of
`generate_crc`, iterated `n` times (the code uses `n = 8`). -/
def crc_bits : Nat → Nat → Nat
  | 0, crc => crc
  | n + 1, crc => crc_bits n (crc_round crc)

/-- `generate_crc(data, count)` (sgp41.c): starting from `CRC8_INIT`,
for each input byte XOR it into the register and run the 8-round bit
loop.  The `count` parameter is absorbed into the list length. -/
def generate_crc (data : List Nat) : Nat :=
  data.foldl (fun crc b => crc_bits 8 (crc ^^^ b)) CRC8_INIT

/-- `check_crc(data, count, checksum)` (sgp41.c):
`if (generate_crc(data, count) != checksum) return false; return true;` -/
def check_crc (data : List Nat) (checksum : Nat) : Bool :=
  if generate_crc data ≠ checksum then false else true

/-! ## Reference CRC-8, written from the specification's words

The spec (section 4.1) describes the algorithm as: polynomial 0x31,
initial register 0xFF, MSB-first, no input/output reflection, no final
XOR; for each input byte XOR it into the register, then repeat 8 times:
if the high bit is set, shift left and XOR the polynomial, else shift
left.  These definitions follow that prose (an 8-bit register, so a
shift left is doubling modulo 256 and the high bit is bit 7); they are
deliberately phrased independently of `generate_crc`. -/

/-- One bit step of the specification's CRC: if the high bit (bit 7) of
the 8-bit register is set, shift left and XOR 0x31, else shift left. -/
def crc8_spec_round (reg : Nat) : Nat :=
  if Nat.testBit reg 7 then ((2 * reg) % 256) ^^^ 0x31
  else (2 * reg) % 256

/-- The specification's "repeat 8 times" bit loop, iterated `n` times. -/
def crc8_spec_bits : Nat → Nat → Nat
  | 0, reg => reg
  | n + 1, reg => crc8_spec_bits n (crc8_spec_round reg)

/-- The specification's CRC-8: register starts at 0xFF; each input byte
is XORed into the register and the 8-step bit loop is run. -/
def crc8_spec (data : List Nat) : Nat :=
  data.foldl (fun reg b => crc8_spec_bits 8 (reg ^^^ b)) 0xFF

/-! ## Helper lemmas about Nat bit operations -/

/-- Truncation to `2^n` bits commutes with XOR. -/
lemma xor_mod_two_pow (a b n : Nat) :
    (a ^^^ b) % 2 ^ n = (a % 2 ^ n) ^^^ (b % 2 ^ n) := by
  apply Nat.eq_of_testBit_eq
  intro i
  simp only [Nat.testBit_mod_two_pow, Nat.testBit_xor]
  by_cases h : i < n <;> simp [h]

/-- The test `crc & 0x80 != 0` of the C code is the spec's "high bit set". -/
lemma and_128_ne_zero_iff_testBit (c : Nat) :
    (c &&& 0x80 ≠ 0) ↔ Nat.testBit c 7 = true := by
  have h : c &&& 2 ^ 7 = (c.testBit 7).toNat * 2 ^ 7 := Nat.and_two_pow c 7
  constructor
  · intro hne
    rcases hb : c.testBit 7 with _ | _
    · rw [hb] at h
      simp at h
      exact absurd h hne
    · rfl
  · intro ht
    rw [ht] at h
    simp at h
    simp [h]

/-- The C bit round and the specification's bit round agree on every
register value. -/
lemma crc_round_eq_spec_round (c : Nat) : crc_round c = crc8_spec_round c := by
  unfold crc_round crc8_spec_round
  by_cases h : c &&& 0x80 ≠ 0
  · rw [if_pos h, if_pos ((and_128_ne_zero_iff_testBit c).mp h)]
    rw [CRC8_POLYNOMIAL, Nat.shiftLeft_eq]
    have h256 : (256 : Nat) = 2 ^ 8 := by norm_num
    rw [h256, xor_mod_two_pow]
    norm_num [Nat.mul_comm]
  · rw [if_neg h]
    have h7 : Nat.testBit c 7 ≠ true := by
      intro ht
      exact h ((and_128_ne_zero_iff_testBit c).mpr ht)
    rw [if_neg h7, Nat.shiftLeft_eq]
    norm_num [Nat.mul_comm]

/-- The two bit loops agree. -/
lemma crc_bits_eq_spec_bits (n c : Nat) : crc_bits n c = crc8_spec_bits n c := by
  induction n generalizing c with
  | zero => rfl
  | succ m ih =>
    unfold crc_bits crc8_spec_bits
    rw [crc_round_eq_spec_round, ih]

/-- `generate_crc` and the specification's reference CRC agree on every
byte sequence. -/
lemma generate_crc_eq_crc8_spec (data : List Nat) :
    generate_crc data = crc8_spec data := by
  unfold generate_crc crc8_spec
  rw [CRC8_INIT]
  have h : ∀ (l : List Nat) (init : Nat),
      l.foldl (fun crc b => crc_bits 8 (crc ^^^ b)) init
        = l.foldl (fun reg b => crc8_spec_bits 8 (reg ^^^ b)) init := by
    intro l
    induction l with
    | nil => intro init; rfl
    | cons b bs ih =>
      intro init
      simp only [List.foldl_cons]
      rw [crc_bits_eq_spec_bits, ih]
  exact h data 0xFF

/-! ## Injectivity of the CRC bit loop

The CRC polynomial 0x31 has its constant term set, so every bit round is
a bijection on 8-bit values: bit 0 of the output records whether bit 7 of
the input was set, and the remaining bits recover the rest.  This gives
the error-detection property (no single-bit flip is silent). -/

/-- Explicit inverse of `crc_round` on 8-bit values: bit 0 of the output
tells which branch was taken (0x31 is odd and a shift clears bit 0). -/
def crc_round_inv (c : Nat) : Nat :=
  if c &&& 1 ≠ 0 then ((c ^^^ CRC8_POLYNOMIAL) >>> 1) + 0x80
  else c >>> 1

set_option maxRecDepth 4000 in
/-- `crc_round_inv` undoes `crc_round` on every 8-bit register value. -/
lemma crc_round_inv_round : ∀ c, c < 256 → crc_round_inv (crc_round c) = c := by
  decide

/-- The bit round always lands in the 8-bit range. -/
lemma crc_round_lt (c : Nat) : crc_round c < 256 := by
  unfold crc_round
  by_cases h : c &&& 0x80 ≠ 0 <;> simp [h] <;> omega

/-- The bit loop keeps 8-bit values 8-bit. -/
lemma crc_bits_lt (n : Nat) : ∀ c, c < 256 → crc_bits n c < 256 := by
  induction n with
  | zero => intro c hc; exact hc
  | succ m ih => intro c _; exact ih (crc_round c) (crc_round_lt c)

/-- The bit round is injective on 8-bit values. -/
lemma crc_round_inj {a b : Nat} (ha : a < 256) (hb : b < 256)
    (h : crc_round a = crc_round b) : a = b := by
  have := congrArg crc_round_inv h
  rwa [crc_round_inv_round a ha, crc_round_inv_round b hb] at this

/-- The bit loop is injective on 8-bit values. -/
lemma crc_bits_inj (n : Nat) : ∀ a b, a < 256 → b < 256 →
    crc_bits n a = crc_bits n b → a = b := by
  induction n with
  | zero => intro a b _ _ h; exact h
  | succ m ih =>
    intro a b ha hb h
    exact crc_round_inj ha hb
      (ih (crc_round a) (crc_round b) (crc_round_lt a) (crc_round_lt b) h)

/-- XOR cancels on the left. -/
lemma xor_left_cancel {a x y : Nat} (h : a ^^^ x = a ^^^ y) : x = y := by
  have := congrArg (fun z => a ^^^ z) h
  simpa [← Nat.xor_assoc, Nat.xor_self, Nat.zero_xor] using this

/-- XOR cancels on the right. -/
lemma xor_right_cancel {a x y : Nat} (h : x ^^^ a = y ^^^ a) : x = y := by
  have := congrArg (fun z => z ^^^ a) h
  simpa [Nat.xor_assoc, Nat.xor_self, Nat.xor_zero] using this

/-- XORing a nonzero value changes the argument. -/
lemma xor_ne_self {x e : Nat} (he : e ≠ 0) : x ^^^ e ≠ x := by
  intro h
  apply he
  have : x ^^^ e = x ^^^ 0 := by rwa [Nat.xor_zero]
  exact xor_left_cancel this

/-- `generate_crc` on a two-byte message, unfolded. -/
lemma generate_crc_two (d0 d1 : Nat) :
    generate_crc [d0, d1] = crc_bits 8 (crc_bits 8 (0xFF ^^^ d0) ^^^ d1) := rfl

/-- Changing the first byte of a two-byte message changes its CRC. -/
lemma generate_crc_two_inj_fst {d0 d0' d1 : Nat}
    (h0 : d0 < 256) (h0' : d0' < 256) (h1 : d1 < 256) (hne : d0' ≠ d0) :
    generate_crc [d0', d1] ≠ generate_crc [d0, d1] := by
  intro h
  rw [generate_crc_two, generate_crc_two] at h
  have hx : (0xFF : Nat) ^^^ d0' < 256 :=
    Nat.xor_lt_two_pow (n := 8) (by norm_num) h0'
  have hy : (0xFF : Nat) ^^^ d0 < 256 :=
    Nat.xor_lt_two_pow (n := 8) (by norm_num) h0
  have hx2 : crc_bits 8 (0xFF ^^^ d0') ^^^ d1 < 256 :=
    Nat.xor_lt_two_pow (n := 8) (crc_bits_lt 8 _ hx) h1
  have hy2 : crc_bits 8 (0xFF ^^^ d0) ^^^ d1 < 256 :=
    Nat.xor_lt_two_pow (n := 8) (crc_bits_lt 8 _ hy) h1
  have h2 := crc_bits_inj 8 _ _ hx2 hy2 h
  have h3 := xor_right_cancel h2
  have h4 := crc_bits_inj 8 _ _ hx hy h3
  exact hne (xor_left_cancel h4)

/-- Changing the second byte of a two-byte message changes its CRC. -/
lemma generate_crc_two_inj_snd {d0 d1 d1' : Nat}
    (h0 : d0 < 256) (h1 : d1 < 256) (h1' : d1' < 256) (hne : d1' ≠ d1) :
    generate_crc [d0, d1'] ≠ generate_crc [d0, d1] := by
  intro h
  rw [generate_crc_two, generate_crc_two] at h
  have hc : crc_bits 8 (0xFF ^^^ d0) < 256 :=
    crc_bits_lt 8 _ (Nat.xor_lt_two_pow (n := 8) (by norm_num) h0)
  have hx : crc_bits 8 (0xFF ^^^ d0) ^^^ d1' < 256 :=
    Nat.xor_lt_two_pow (n := 8) hc h1'
  have hy : crc_bits 8 (0xFF ^^^ d0) ^^^ d1 < 256 :=
    Nat.xor_lt_two_pow (n := 8) hc h1
  have h2 := crc_bits_inj 8 _ _ hx hy h
  exact hne (xor_left_cancel h2)

/-- `check_crc` fails exactly when the recomputed CRC differs. -/
lemma check_crc_eq_false_iff (data : List Nat) (checksum : Nat) :
    check_crc data checksum = false ↔ generate_crc data ≠ checksum := by
  unfold check_crc
  by_cases h : generate_crc data ≠ checksum <;> simp [h]

/-- A response triplet with its byte `i / 8` XORed with `2 ^ (i % 8)`:
the single-bit flip of bit `j` (0 ≤ j < 24) of the triplet, where bits
0-7 live in the first data byte, 8-15 in the second data byte and 16-23
in the checksum byte. -/
def flip_triplet (d0 d1 c j : Nat) : Nat × Nat × Nat :=
  if j < 8 then (d0 ^^^ (1 <<< j), d1, c)
  else if j < 16 then (d0, d1 ^^^ (1 <<< (j - 8)), c)
  else (d0, d1, c ^^^ (1 <<< (j - 16)))

/-! ## Bus model and transport framing

`i2c_write` (sgp41.c lines 353-376) builds a buffer holding the 2-byte
register address big-endian followed by the data bytes and hands it to
`i2c_master_transmit`; `i2c_read` (lines 339-348) hands the caller's
buffer to `i2c_master_receive`.  Both primitives are external
collaborators; a `Bus` value fixes their behaviour for one operation:
whether the single transmit succeeds, whether the single receive
succeeds, and the byte stream the receive deposits.  Each driver
operation performs at most one write and one read and never retries. -/

/-- Outcome of the two bus primitives during one driver operation.
`rx i` is the `i`-th byte deposited by `i2c_master_receive`; the driver
stores it into a `uint8_t` array, hence the `% 256` at the use sites. -/
structure Bus where
  writeOk : Bool
  readOk : Bool
  rx : Nat → Nat

/-- The buffer `i2c_write` hands to `i2c_master_transmit`:
`buffer[i] = (reg_addr & (0xFF << ((addr_len-1-i)*8))) >> ((addr_len-1-i)*8)`
for `i = 0, 1` (`addr_len = sizeof(uint16_t) = 2`), followed by the
`data_len` payload bytes.  (`SGP41_I2C_BUFFER_LEN_MAX = 8`, which the
driver's calls, `data_len ≤ 6`, never exceed.) -/
def i2c_write_frame (reg_addr : Nat) (reg_data : List Nat) : List Nat :=
  [(reg_addr &&& (0xFF <<< 8)) >>> 8, reg_addr &&& 0xFF] ++ reg_data

/-- The `data_tx` initializer shared verbatim by
`sgp41_execute_conditioning` (lines 169-174, parameters `default_rh`,
`default_t`) and `sgp41_measure_raw_signals` (lines 212-217, parameters
`relative_humidity`, `temperature`): high byte, low byte and CRC of the
first word followed by high byte, low byte and CRC of the second word. -/
def data_tx_frame (w1 w2 : Nat) : List Nat :=
  [(w1 >>> 8) &&& 0xFF, w1 &&& 0xFF,
   generate_crc [(w1 >>> 8) &&& 0xFF, w1 &&& 0xFF],
   (w2 >>> 8) &&& 0xFF, w2 &&& 0xFF,
   generate_crc [(w2 >>> 8) &&& 0xFF, w2 &&& 0xFF]]

/-- Argument of `delay_us` in `sgp41_execute_conditioning`:
`delay_us(50 * 1000); /* Wait for 50 ms */` -/
def conditioning_delay_us : Nat := 50 * 1000

/-- Argument of `delay_us` in `sgp41_measure_raw_signals`:
`delay_us(50 * 1000); /* Wait for 50 ms */` -/
def measure_raw_delay_us : Nat := 50 * 1000

/-- Argument of `delay_us` in `sgp41_execute_self_test`:
`delay_us(320 * 1000); /* Wait for 320 ms */` -/
def self_test_delay_us : Nat := 320 * 1000

/-- Argument of `delay_us` in `sgp41_turn_heater_off`:
`delay_us(1 * 1000); /* Wait for 1 ms */` -/
def heater_off_delay_us : Nat := 1 * 1000

/-- Argument of `delay_us` in `sgp41_get_serial_number`:
`delay_us(1 * 1000); /* Wait for 1 ms */` -/
def serial_number_delay_us : Nat := 1 * 1000

/-! ## Driver operations (sgp41.c)

Each result record carries the returned `esp_err_t`, the buffer handed
to `i2c_master_transmit` (the write is attempted in every run, so the
frame is defined on every path), and the final contents of each
caller-supplied out location (initial contents are passed in, matching
the C out-pointers, which the code only assigns after all checks). -/

/-- Result of `sgp41_execute_conditioning`. -/
structure CondResult where
  ret : Int
  tx : List Nat
  sraw_voc : Nat

/-- `sgp41_execute_conditioning` (sgp41.c lines 163-199): build
`data_tx`, write opcode 0x2612 + payload, wait 50 ms, read 3 bytes,
check the single triplet's CRC, and on success store the big-endian
word of bytes 0-1 into `*sraw_voc`.  `i2c_write` returns `< 0` exactly
when the transmit fails, `i2c_read` returns `< 0` exactly when the
receive fails. -/
def sgp41_execute_conditioning (bus : Bus) (default_rh default_t : Nat)
    (sraw_voc0 : Nat) : CondResult :=
  let data_tx := data_tx_frame default_rh default_t
  let tx := i2c_write_frame SPG41_EXECUTE_CONDITIONING_CMD data_tx
  if bus.writeOk = false then ⟨ESP_FAIL, tx, sraw_voc0⟩
  else
    -- delay_us (50 * 1000)
    if bus.readOk = false then ⟨ESP_FAIL, tx, sraw_voc0⟩
    else
      let data_rx := fun i => bus.rx i % 256
      -- for (i = 0; i < 3; i += 3): one iteration, i = 0
      if check_crc [data_rx 0, data_rx 1] (data_rx 2) = false then
        ⟨ESP_FAIL, tx, sraw_voc0⟩
      else
        ⟨ESP_OK, tx, ((data_rx 0 <<< 8) ||| data_rx 1) % 65536⟩

/-- Result of `sgp41_measure_raw_signals`. -/
structure MeasureResult where
  ret : Int
  tx : List Nat
  sraw_voc : Nat
  sraw_nox : Nat

/-- `sgp41_measure_raw_signals` (sgp41.c lines 205-243): build
`data_tx`, write opcode 0x2619 + payload, wait 50 ms, read 6 bytes,
check both triplets' CRCs (loop `i = 0, 3`), and on success store the
big-endian words of bytes 0-1 and 3-4 into `*sraw_voc` / `*sraw_nox`. -/
def sgp41_measure_raw_signals (bus : Bus) (relative_humidity temperature : Nat)
    (sraw_voc0 sraw_nox0 : Nat) : MeasureResult :=
  let data_tx := data_tx_frame relative_humidity temperature
  let tx := i2c_write_frame SPG41_MESASURE_RAW_SIGNALS_CMD data_tx
  if bus.writeOk = false then ⟨ESP_FAIL, tx, sraw_voc0, sraw_nox0⟩
  else
    -- delay_us (50 * 1000)
    if bus.readOk = false then ⟨ESP_FAIL, tx, sraw_voc0, sraw_nox0⟩
    else
      let data_rx := fun i => bus.rx i % 256
      -- for (i = 0; i < 6; i += 3): iterations i = 0 and i = 3
      if check_crc [data_rx 0, data_rx 1] (data_rx 2) = false then
        ⟨ESP_FAIL, tx, sraw_voc0, sraw_nox0⟩
      else if check_crc [data_rx 3, data_rx 4] (data_rx 5) = false then
        ⟨ESP_FAIL, tx, sraw_voc0, sraw_nox0⟩
      else
        ⟨ESP_OK, tx, ((data_rx 0 <<< 8) ||| data_rx 1) % 65536,
          ((data_rx 3 <<< 8) ||| data_rx 4) % 65536⟩

/-- Result of `sgp41_execute_self_test`. -/
structure SelfTestResult where
  ret : Int
  tx : List Nat
  test_result : Nat

/-- `sgp41_execute_self_test` (sgp41.c lines 250-278): write opcode
0x280E with no payload, wait 320 ms, read 3 bytes, check the triplet's
CRC, and on success store the big-endian word into `*test_result`. -/
def sgp41_execute_self_test (bus : Bus) (test_result0 : Nat) : SelfTestResult :=
  let tx := i2c_write_frame SPG41_EXECUTE_SELF_TEST_CMD []
  if bus.writeOk = false then ⟨ESP_FAIL, tx, test_result0⟩
  else
    -- delay_us (320 * 1000)
    if bus.readOk = false then ⟨ESP_FAIL, tx, test_result0⟩
    else
      let data_rx := fun i => bus.rx i % 256
      if check_crc [data_rx 0, data_rx 1] (data_rx 2) = false then
        ⟨ESP_FAIL, tx, test_result0⟩
      else
        ⟨ESP_OK, tx, ((data_rx 0 <<< 8) ||| data_rx 1) % 65536⟩

/-- Result of `sgp41_turn_heater_off`. -/
structure HeaterResult where
  ret : Int
  tx : List Nat

/-- `sgp41_turn_heater_off` (sgp41.c lines 284-297): write opcode
0x3615 with no payload, wait 1 ms, no read. -/
def sgp41_turn_heater_off (bus : Bus) : HeaterResult :=
  let tx := i2c_write_frame SPG41_TURN_HEATER_FF_CMD []
  if bus.writeOk = false then ⟨ESP_FAIL, tx⟩
  else
    -- delay_us (1 * 1000)
    ⟨ESP_OK, tx⟩

/-- Result of `sgp41_get_serial_number`; `sn0`, `sn1`, `sn2` are the
final contents of `serial_number[0..2]`. -/
structure SerialResult where
  ret : Int
  tx : List Nat
  sn0 : Nat
  sn1 : Nat
  sn2 : Nat

/-- `sgp41_get_serial_number` (sgp41.c lines 303-333): write opcode
0x3682 with no payload, wait 1 ms, read 9 bytes, check the three
triplets' CRCs (loop `i = 0, 3, 6`), and on success store the
big-endian words of bytes 0-1, 3-4 and 6-7 into `serial_number[0..2]`. -/
def sgp41_get_serial_number (bus : Bus) (sn0i sn1i sn2i : Nat) : SerialResult :=
  let tx := i2c_write_frame SPG41_GET_SERIAL_NUMBER_CMD []
  if bus.writeOk = false then ⟨ESP_FAIL, tx, sn0i, sn1i, sn2i⟩
  else
    -- delay_us (1 * 1000)
    if bus.readOk = false then ⟨ESP_FAIL, tx, sn0i, sn1i, sn2i⟩
    else
      let data_rx := fun i => bus.rx i % 256
      -- for (i = 0; i < 9; i += 3): iterations i = 0, 3, 6
      if check_crc [data_rx 0, data_rx 1] (data_rx 2) = false then
        ⟨ESP_FAIL, tx, sn0i, sn1i, sn2i⟩
      else if check_crc [data_rx 3, data_rx 4] (data_rx 5) = false then
        ⟨ESP_FAIL, tx, sn0i, sn1i, sn2i⟩
      else if check_crc [data_rx 6, data_rx 7] (data_rx 8) = false then
        ⟨ESP_FAIL, tx, sn0i, sn1i, sn2i⟩
      else
        ⟨ESP_OK, tx, ((data_rx 0 <<< 8) ||| data_rx 1) % 65536,
          ((data_rx 3 <<< 8) ||| data_rx 4) % 65536,
          ((data_rx 6 <<< 8) ||| data_rx 7) % 65536⟩

/-- `sgp41_init` (sgp41.c lines 112-154).  `add_device_ok` is the
outcome of the external `i2c_master_bus_add_device`; `bus_self_test`
and `bus_serial` fix the bus behaviour seen by the inner
`sgp41_execute_self_test` and `sgp41_get_serial_number` calls;
`test_result0` is the (uninitialized) stack value of `test_result`
and `sn0i sn1i sn2i` the stack values of `serial_number[0..2]`.
The code sets `ret = ESP_OK` once and returns `ret` on every path:
when adding the device fails it logs an error and returns `ret`
(still `ESP_OK`); a self-test result different from 0xD400 is only
logged; the serial number is fetched for logging; the return value
is `ret = ESP_OK` in all cases. -/
def sgp41_init (add_device_ok : Bool) (bus_self_test bus_serial : Bus)
    (test_result0 sn0i sn1i sn2i : Nat) : Int :=
  let ret := ESP_OK
  if add_device_ok = false then ret
  else
    let st := sgp41_execute_self_test bus_self_test test_result0
    -- if (test_result != 0xD400) the code logs an error, else a success
    -- message; either way it continues
    let _ := st.test_result ≠ 0xD400
    let _sn := sgp41_get_serial_number bus_serial sn0i sn1i sn2i
    ret

/-! ## Arithmetic helper lemmas -/

/-- Masking with 0xFF is reduction modulo 256. -/
lemma and_255_eq_mod (x : Nat) : x &&& 0xFF = x % 256 := by
  have h := Nat.and_pow_two_sub_one_eq_mod x 8
  norm_num at h
  exact h

/-- For a 16-bit word, the C expression `(x >> 8) & 0xFF` is the high
byte `x / 256`. -/
lemma hi_byte_eq (x : Nat) (h : x < 65536) : (x >>> 8) &&& 0xFF = x / 256 := by
  rw [and_255_eq_mod, Nat.shiftRight_eq_div_pow]
  norm_num
  omega

/-- The C expression `x & 0xFF` is the low byte `x % 256`. -/
lemma lo_byte_eq (x : Nat) : x &&& 0xFF = x % 256 := and_255_eq_mod x

/-- Interleaving a byte below a left-shifted value is addition. -/
lemma shiftLeft_or_eq_add (a b : Nat) (hb : b < 256) :
    (a <<< 8) ||| b = a * 256 + b := by
  have hb' : b < 2 ^ 8 := by omega
  apply Nat.eq_of_testBit_eq
  intro j
  rw [Nat.testBit_or, Nat.testBit_shiftLeft,
    show a * 256 + b = 2 ^ 8 * a + b by ring,
    Nat.testBit_mul_pow_two_add a hb' j]
  rcases Nat.lt_or_ge j 8 with hj | hj
  · simp [hj, Nat.not_le.mpr hj]
  · have hbt : b.testBit j = false :=
      Nat.testBit_lt_two_pow
        (lt_of_lt_of_le hb' (Nat.pow_le_pow_right (by norm_num) hj))
    simp [hj, Nat.not_lt.mpr hj, hbt]

/-- The big-endian decode `(uint16_t)((b0 << 8) | b1)` of two bytes is
`256 * b0 + b1`. -/
lemma be_word_eq (b0 b1 : Nat) (h0 : b0 < 256) (h1 : b1 < 256) :
    ((b0 <<< 8) ||| b1) % 65536 = 256 * b0 + b1 := by
  rw [shiftLeft_or_eq_add b0 b1 h1]
  rw [Nat.mod_eq_of_lt (by omega)]
  ring

/-! ## Claims -/

/-- C1: `generate_crc` implements exactly CRC-8 with polynomial 0x31,
initial register 0xFF, MSB-first, no reflection and no final XOR, as
described by the reference definition `crc8_spec` written from the
specification's prose; in particular the two agree on the golden input
[0xBE, 0xEF]. -/
theorem claim_C1_generate_crc_matches_reference :
    (∀ data : List Nat, generate_crc data = crc8_spec data) ∧
    generate_crc [0xBE, 0xEF] = crc8_spec [0xBE, 0xEF] := by
  refine ⟨generate_crc_eq_crc8_spec, generate_crc_eq_crc8_spec _⟩

/-- C5: for every byte sequence, `check_crc` accepts the checksum that
`generate_crc` produces on the same sequence (round-trip). -/
theorem claim_C5_check_crc_roundtrip :
    ∀ data : List Nat, check_crc data (generate_crc data) = true := by
  intro data
  unfold check_crc
  simp

/-- C9: `sgp41_init` returns `ESP_OK` on every path — also on the path
where `i2c_master_bus_add_device` fails, where the failure is only
logged and the early return still yields `ret = ESP_OK`, so a caller
cannot detect the registration failure from the return value. -/
theorem claim_C9_init_returns_ok_always :
    ∀ (add_device_ok : Bool) (bus_self_test bus_serial : Bus)
      (test_result0 sn0i sn1i sn2i : Nat),
      sgp41_init add_device_ok bus_self_test bus_serial
        test_result0 sn0i sn1i sn2i = ESP_OK := by
  intro add_device_ok bus_self_test bus_serial test_result0 sn0i sn1i sn2i
  unfold sgp41_init
  cases add_device_ok <;> simp

/-- On every path of `sgp41_execute_conditioning` the transmit buffer is
the framed opcode + payload. -/
lemma conditioning_tx (bus : Bus) (rh t v0 : Nat) :
    (sgp41_execute_conditioning bus rh t v0).tx
      = i2c_write_frame SPG41_EXECUTE_CONDITIONING_CMD (data_tx_frame rh t) := by
  unfold sgp41_execute_conditioning
  dsimp only
  split
  · rfl
  · split
    · rfl
    · split <;> rfl

/-- On every path of `sgp41_measure_raw_signals` the transmit buffer is
the framed opcode + payload. -/
lemma measure_tx (bus : Bus) (rh t v0 n0 : Nat) :
    (sgp41_measure_raw_signals bus rh t v0 n0).tx
      = i2c_write_frame SPG41_MESASURE_RAW_SIGNALS_CMD (data_tx_frame rh t) := by
  unfold sgp41_measure_raw_signals
  dsimp only
  split
  · rfl
  · split
    · rfl
    · split
      · rfl
      · split <;> rfl

/-- On every path of `sgp41_execute_self_test` the transmit buffer is
the framed opcode with empty payload. -/
lemma self_test_tx (bus : Bus) (tr0 : Nat) :
    (sgp41_execute_self_test bus tr0).tx
      = i2c_write_frame SPG41_EXECUTE_SELF_TEST_CMD [] := by
  unfold sgp41_execute_self_test
  dsimp only
  split
  · rfl
  · split
    · rfl
    · split <;> rfl

/-- On every path of `sgp41_turn_heater_off` the transmit buffer is the
framed opcode with empty payload. -/
lemma heater_tx (bus : Bus) :
    (sgp41_turn_heater_off bus).tx
      = i2c_write_frame SPG41_TURN_HEATER_FF_CMD [] := by
  unfold sgp41_turn_heater_off
  dsimp only
  split <;> rfl

/-- On every path of `sgp41_get_serial_number` the transmit buffer is
the framed opcode with empty payload. -/
lemma serial_tx (bus : Bus) (s0 s1 s2 : Nat) :
    (sgp41_get_serial_number bus s0 s1 s2).tx
      = i2c_write_frame SPG41_GET_SERIAL_NUMBER_CMD [] := by
  unfold sgp41_get_serial_number
  dsimp only
  split
  · rfl
  · split
    · rfl
    · split
      · rfl
      · split
        · rfl
        · split <;> rfl

/-- C7: every operation's single bus write transmits exactly the 16-bit
opcode big-endian (high byte first) followed by the payload bytes, and
the opcodes are 0x2612 (Execute Conditioning), 0x2619 (Measure Raw
Signals), 0x280E (Execute Self Test), 0x3615 (Turn Heater Off) and
0x3682 (Get Serial Number). -/
theorem claim_C7_write_framing_opcodes :
    ∀ (bus : Bus) (rh t v0 n0 tr0 s0 s1 s2 : Nat),
      (sgp41_execute_conditioning bus rh t v0).tx
          = SPG41_EXECUTE_CONDITIONING_CMD / 256
            :: SPG41_EXECUTE_CONDITIONING_CMD % 256 :: data_tx_frame rh t
      ∧ (sgp41_measure_raw_signals bus rh t v0 n0).tx
          = SPG41_MESASURE_RAW_SIGNALS_CMD / 256
            :: SPG41_MESASURE_RAW_SIGNALS_CMD % 256 :: data_tx_frame rh t
      ∧ (sgp41_execute_self_test bus tr0).tx
          = [SPG41_EXECUTE_SELF_TEST_CMD / 256, SPG41_EXECUTE_SELF_TEST_CMD % 256]
      ∧ (sgp41_turn_heater_off bus).tx
          = [SPG41_TURN_HEATER_FF_CMD / 256, SPG41_TURN_HEATER_FF_CMD % 256]
      ∧ (sgp41_get_serial_number bus s0 s1 s2).tx
          = [SPG41_GET_SERIAL_NUMBER_CMD / 256, SPG41_GET_SERIAL_NUMBER_CMD % 256]
      ∧ SPG41_EXECUTE_CONDITIONING_CMD = 0x2612
      ∧ SPG41_MESASURE_RAW_SIGNALS_CMD = 0x2619
      ∧ SPG41_EXECUTE_SELF_TEST_CMD = 0x280E
      ∧ SPG41_TURN_HEATER_FF_CMD = 0x3615
      ∧ SPG41_GET_SERIAL_NUMBER_CMD = 0x3682 := by
  intro bus rh t v0 n0 tr0 s0 s1 s2
  refine ⟨?_, ?_, ?_, ?_, ?_, rfl, rfl, rfl, rfl, rfl⟩
  · rw [conditioning_tx]; rfl
  · rw [measure_tx]; rfl
  · rw [self_test_tx]; rfl
  · rw [heater_tx]; rfl
  · rw [serial_tx]; rfl

/-- `check_crc` succeeds exactly when the recomputed CRC matches. -/
lemma check_crc_eq_true_iff (data : List Nat) (checksum : Nat) :
    check_crc data checksum = true ↔ generate_crc data = checksum := by
  unfold check_crc
  by_cases h : generate_crc data = checksum <;> simp [h]

/-- Behaviour of `sgp41_execute_conditioning`: success exactly when the
write, the read and the triplet CRC check all pass; the return code is
always `ESP_OK` or `ESP_FAIL`; on success `*sraw_voc` holds the
big-endian word of response bytes 0-1; on failure it is untouched. -/
lemma conditioning_spec (bus : Bus) (rh t v0 : Nat) :
    ((sgp41_execute_conditioning bus rh t v0).ret = ESP_OK
      ↔ bus.writeOk = true ∧ bus.readOk = true
        ∧ check_crc [bus.rx 0 % 256, bus.rx 1 % 256] (bus.rx 2 % 256) = true)
    ∧ ((sgp41_execute_conditioning bus rh t v0).ret = ESP_OK
        ∨ (sgp41_execute_conditioning bus rh t v0).ret = ESP_FAIL)
    ∧ ((sgp41_execute_conditioning bus rh t v0).ret = ESP_OK
        → (sgp41_execute_conditioning bus rh t v0).sraw_voc
            = ((bus.rx 0 % 256) <<< 8 ||| bus.rx 1 % 256) % 65536)
    ∧ ((sgp41_execute_conditioning bus rh t v0).ret = ESP_FAIL
        → (sgp41_execute_conditioning bus rh t v0).sraw_voc = v0) := by
  obtain ⟨w, r, rx⟩ := bus
  cases w <;> cases r <;>
    simp only [sgp41_execute_conditioning, ESP_OK, ESP_FAIL] <;>
    simp
  cases hc : check_crc [rx 0 % 256, rx 1 % 256] (rx 2 % 256) <;> simp [hc]

/-- Behaviour of `sgp41_measure_raw_signals`: success exactly when the
write, the read and both triplet CRC checks pass; on success the two
out-words hold the big-endian words of bytes 0-1 and 3-4; on failure
both are untouched. -/
lemma measure_spec (bus : Bus) (rh t v0 n0 : Nat) :
    ((sgp41_measure_raw_signals bus rh t v0 n0).ret = ESP_OK
      ↔ bus.writeOk = true ∧ bus.readOk = true
        ∧ check_crc [bus.rx 0 % 256, bus.rx 1 % 256] (bus.rx 2 % 256) = true
        ∧ check_crc [bus.rx 3 % 256, bus.rx 4 % 256] (bus.rx 5 % 256) = true)
    ∧ ((sgp41_measure_raw_signals bus rh t v0 n0).ret = ESP_OK
        ∨ (sgp41_measure_raw_signals bus rh t v0 n0).ret = ESP_FAIL)
    ∧ ((sgp41_measure_raw_signals bus rh t v0 n0).ret = ESP_OK
        → (sgp41_measure_raw_signals bus rh t v0 n0).sraw_voc
              = ((bus.rx 0 % 256) <<< 8 ||| bus.rx 1 % 256) % 65536
          ∧ (sgp41_measure_raw_signals bus rh t v0 n0).sraw_nox
              = ((bus.rx 3 % 256) <<< 8 ||| bus.rx 4 % 256) % 65536)
    ∧ ((sgp41_measure_raw_signals bus rh t v0 n0).ret = ESP_FAIL
        → (sgp41_measure_raw_signals bus rh t v0 n0).sraw_voc = v0
          ∧ (sgp41_measure_raw_signals bus rh t v0 n0).sraw_nox = n0) := by
  obtain ⟨w, r, rx⟩ := bus
  cases w <;> cases r <;>
    simp only [sgp41_measure_raw_signals, ESP_OK, ESP_FAIL] <;>
    simp
  cases hc1 : check_crc [rx 0 % 256, rx 1 % 256] (rx 2 % 256) <;>
    cases hc2 : check_crc [rx 3 % 256, rx 4 % 256] (rx 5 % 256) <;>
    simp [hc1, hc2]

/-- Behaviour of `sgp41_execute_self_test`: success exactly when the
write, the read and the triplet CRC check pass; on success
`*test_result` holds the big-endian word of bytes 0-1; on failure it is
untouched. -/
lemma self_test_spec (bus : Bus) (tr0 : Nat) :
    ((sgp41_execute_self_test bus tr0).ret = ESP_OK
      ↔ bus.writeOk = true ∧ bus.readOk = true
        ∧ check_crc [bus.rx 0 % 256, bus.rx 1 % 256] (bus.rx 2 % 256) = true)
    ∧ ((sgp41_execute_self_test bus tr0).ret = ESP_OK
        ∨ (sgp41_execute_self_test bus tr0).ret = ESP_FAIL)
    ∧ ((sgp41_execute_self_test bus tr0).ret = ESP_OK
        → (sgp41_execute_self_test bus tr0).test_result
            = ((bus.rx 0 % 256) <<< 8 ||| bus.rx 1 % 256) % 65536)
    ∧ ((sgp41_execute_self_test bus tr0).ret = ESP_FAIL
        → (sgp41_execute_self_test bus tr0).test_result = tr0) := by
  obtain ⟨w, r, rx⟩ := bus
  cases w <;> cases r <;>
    simp only [sgp41_execute_self_test, ESP_OK, ESP_FAIL] <;>
    simp
  cases hc : check_crc [rx 0 % 256, rx 1 % 256] (rx 2 % 256) <;> simp [hc]

/-- Behaviour of `sgp41_turn_heater_off`: success exactly when the
write passes. -/
lemma heater_spec (bus : Bus) :
    ((sgp41_turn_heater_off bus).ret = ESP_OK ↔ bus.writeOk = true)
    ∧ ((sgp41_turn_heater_off bus).ret = ESP_OK
        ∨ (sgp41_turn_heater_off bus).ret = ESP_FAIL) := by
  obtain ⟨w, r, rx⟩ := bus
  cases w <;> simp [sgp41_turn_heater_off, ESP_OK, ESP_FAIL]

/-- Behaviour of `sgp41_get_serial_number`: success exactly when the
write, the read and all three triplet CRC checks pass; on success the
three out-words hold the big-endian words of bytes 0-1, 3-4 and 6-7;
on failure all three are untouched. -/
lemma serial_spec (bus : Bus) (s0 s1 s2 : Nat) :
    ((sgp41_get_serial_number bus s0 s1 s2).ret = ESP_OK
      ↔ bus.writeOk = true ∧ bus.readOk = true
        ∧ check_crc [bus.rx 0 % 256, bus.rx 1 % 256] (bus.rx 2 % 256) = true
        ∧ check_crc [bus.rx 3 % 256, bus.rx 4 % 256] (bus.rx 5 % 256) = true
        ∧ check_crc [bus.rx 6 % 256, bus.rx 7 % 256] (bus.rx 8 % 256) = true)
    ∧ ((sgp41_get_serial_number bus s0 s1 s2).ret = ESP_OK
        ∨ (sgp41_get_serial_number bus s0 s1 s2).ret = ESP_FAIL)
    ∧ ((sgp41_get_serial_number bus s0 s1 s2).ret = ESP_OK
        → (sgp41_get_serial_number bus s0 s1 s2).sn0
              = ((bus.rx 0 % 256) <<< 8 ||| bus.rx 1 % 256) % 65536
          ∧ (sgp41_get_serial_number bus s0 s1 s2).sn1
              = ((bus.rx 3 % 256) <<< 8 ||| bus.rx 4 % 256) % 65536
          ∧ (sgp41_get_serial_number bus s0 s1 s2).sn2
              = ((bus.rx 6 % 256) <<< 8 ||| bus.rx 7 % 256) % 65536)
    ∧ ((sgp41_get_serial_number bus s0 s1 s2).ret = ESP_FAIL
        → (sgp41_get_serial_number bus s0 s1 s2).sn0 = s0
          ∧ (sgp41_get_serial_number bus s0 s1 s2).sn1 = s1
          ∧ (sgp41_get_serial_number bus s0 s1 s2).sn2 = s2) := by
  obtain ⟨w, r, rx⟩ := bus
  cases w <;> cases r <;>
    simp only [sgp41_get_serial_number, ESP_OK, ESP_FAIL] <;>
    simp
  cases hc1 : check_crc [rx 0 % 256, rx 1 % 256] (rx 2 % 256) <;>
    cases hc2 : check_crc [rx 3 % 256, rx 4 % 256] (rx 5 % 256) <;>
    cases hc3 : check_crc [rx 6 % 256, rx 7 % 256] (rx 8 % 256) <;>
    simp [hc1, hc2, hc3]

/-- C2: for every pair of 16-bit inputs, `sgp41_execute_conditioning`
transmits opcode 0x2612 followed by the 6-byte payload
[hi(rh), lo(rh), CRC8(those 2), hi(t), lo(t), CRC8(those 2)], waits
50 ms, reads 3 bytes, succeeds exactly when the write and read succeed
and CRC8(byte0, byte1) equals byte2, on success returns the big-endian
word of byte0 and byte1, and otherwise fails with `ESP_FAIL`. -/
theorem claim_C2_execute_conditioning (bus : Bus) (rh t v0 : Nat)
    (hrh : rh < 65536) (ht : t < 65536) :
    (sgp41_execute_conditioning bus rh t v0).tx
        = [0x26, 0x12, rh / 256, rh % 256, generate_crc [rh / 256, rh % 256],
           t / 256, t % 256, generate_crc [t / 256, t % 256]]
    ∧ conditioning_delay_us = 50 * 1000
    ∧ ((sgp41_execute_conditioning bus rh t v0).ret = ESP_OK
        ↔ bus.writeOk = true ∧ bus.readOk = true
          ∧ generate_crc [bus.rx 0 % 256, bus.rx 1 % 256] = bus.rx 2 % 256)
    ∧ ((sgp41_execute_conditioning bus rh t v0).ret = ESP_OK
        → (sgp41_execute_conditioning bus rh t v0).sraw_voc
            = 256 * (bus.rx 0 % 256) + bus.rx 1 % 256)
    ∧ ((sgp41_execute_conditioning bus rh t v0).ret ≠ ESP_OK
        → (sgp41_execute_conditioning bus rh t v0).ret = ESP_FAIL) := by
  obtain ⟨hiff, hok, hval, _⟩ := conditioning_spec bus rh t v0
  refine ⟨?_, rfl, ?_, ?_, ?_⟩
  · rw [conditioning_tx]
    show 0x26 :: 0x12 :: data_tx_frame rh t = _
    unfold data_tx_frame
    rw [hi_byte_eq rh hrh, lo_byte_eq rh, hi_byte_eq t ht, lo_byte_eq t]
  · rw [hiff, check_crc_eq_true_iff]
  · intro hret
    rw [hval hret,
      be_word_eq _ _ (Nat.mod_lt _ (by norm_num)) (Nat.mod_lt _ (by norm_num))]
  · intro hne
    rcases hok with h | h
    · exact absurd h hne
    · exact h

/-- Witness bus for C2: write and read succeed, response [0, 0, 0x81]
(0x81 is the CRC-8 of [0, 0]). -/
def c2_bus : Bus := ⟨true, true, fun i => [0, 0, 0x81].getD i 0⟩

/-- Witness for C2 at rh = 0x8000, t = 0x6666, response [0, 0, 0x81]. -/
theorem claim_C2_witness :
    (sgp41_execute_conditioning c2_bus 0x8000 0x6666 7).tx
        = [0x26, 0x12, 0x8000 / 256, 0x8000 % 256,
           generate_crc [0x8000 / 256, 0x8000 % 256],
           0x6666 / 256, 0x6666 % 256,
           generate_crc [0x6666 / 256, 0x6666 % 256]]
    ∧ conditioning_delay_us = 50 * 1000
    ∧ ((sgp41_execute_conditioning c2_bus 0x8000 0x6666 7).ret = ESP_OK
        ↔ c2_bus.writeOk = true ∧ c2_bus.readOk = true
          ∧ generate_crc [c2_bus.rx 0 % 256, c2_bus.rx 1 % 256]
              = c2_bus.rx 2 % 256)
    ∧ ((sgp41_execute_conditioning c2_bus 0x8000 0x6666 7).ret = ESP_OK
        → (sgp41_execute_conditioning c2_bus 0x8000 0x6666 7).sraw_voc
            = 256 * (c2_bus.rx 0 % 256) + c2_bus.rx 1 % 256)
    ∧ ((sgp41_execute_conditioning c2_bus 0x8000 0x6666 7).ret ≠ ESP_OK
        → (sgp41_execute_conditioning c2_bus 0x8000 0x6666 7).ret = ESP_FAIL) :=
  claim_C2_execute_conditioning c2_bus 0x8000 0x6666 7 (by decide) (by decide)

/-- C3: for every operation and every bus behaviour, a write failure, a
read failure or a CRC mismatch of any response triplet makes the
operation return `ESP_FAIL`; in particular `sgp41_measure_raw_signals`
rejects the 6-byte response when the first triplet's checksum is wrong
and, independently, when the second triplet's checksum is wrong (each
disjunct alone forces the failure). -/
theorem claim_C3_failure_aborts (bus : Bus) (rh t v0 n0 tr0 s0 s1 s2 : Nat) :
    (bus.writeOk = false ∨ bus.readOk = false
        ∨ check_crc [bus.rx 0 % 256, bus.rx 1 % 256] (bus.rx 2 % 256) = false
      → (sgp41_execute_conditioning bus rh t v0).ret = ESP_FAIL)
    ∧ (bus.writeOk = false ∨ bus.readOk = false
        ∨ check_crc [bus.rx 0 % 256, bus.rx 1 % 256] (bus.rx 2 % 256) = false
        ∨ check_crc [bus.rx 3 % 256, bus.rx 4 % 256] (bus.rx 5 % 256) = false
      → (sgp41_measure_raw_signals bus rh t v0 n0).ret = ESP_FAIL)
    ∧ (bus.writeOk = false ∨ bus.readOk = false
        ∨ check_crc [bus.rx 0 % 256, bus.rx 1 % 256] (bus.rx 2 % 256) = false
      → (sgp41_execute_self_test bus tr0).ret = ESP_FAIL)
    ∧ (bus.writeOk = false → (sgp41_turn_heater_off bus).ret = ESP_FAIL)
    ∧ (bus.writeOk = false ∨ bus.readOk = false
        ∨ check_crc [bus.rx 0 % 256, bus.rx 1 % 256] (bus.rx 2 % 256) = false
        ∨ check_crc [bus.rx 3 % 256, bus.rx 4 % 256] (bus.rx 5 % 256) = false
        ∨ check_crc [bus.rx 6 % 256, bus.rx 7 % 256] (bus.rx 8 % 256) = false
      → (sgp41_get_serial_number bus s0 s1 s2).ret = ESP_FAIL) := by
  refine ⟨?_, ?_, ?_, ?_, ?_⟩
  · intro h
    rcases (conditioning_spec bus rh t v0).2.1 with hok | hfail
    · exfalso
      obtain ⟨hw, hr, hc⟩ := (conditioning_spec bus rh t v0).1.mp hok
      rcases h with h | h | h
      · rw [h] at hw; exact Bool.false_ne_true hw
      · rw [h] at hr; exact Bool.false_ne_true hr
      · rw [h] at hc; exact Bool.false_ne_true hc
    · exact hfail
  · intro h
    rcases (measure_spec bus rh t v0 n0).2.1 with hok | hfail
    · exfalso
      obtain ⟨hw, hr, hc1, hc2⟩ := (measure_spec bus rh t v0 n0).1.mp hok
      rcases h with h | h | h | h
      · rw [h] at hw; exact Bool.false_ne_true hw
      · rw [h] at hr; exact Bool.false_ne_true hr
      · rw [h] at hc1; exact Bool.false_ne_true hc1
      · rw [h] at hc2; exact Bool.false_ne_true hc2
    · exact hfail
  · intro h
    rcases (self_test_spec bus tr0).2.1 with hok | hfail
    · exfalso
      obtain ⟨hw, hr, hc⟩ := (self_test_spec bus tr0).1.mp hok
      rcases h with h | h | h
      · rw [h] at hw; exact Bool.false_ne_true hw
      · rw [h] at hr; exact Bool.false_ne_true hr
      · rw [h] at hc; exact Bool.false_ne_true hc
    · exact hfail
  · intro h
    rcases (heater_spec bus).2 with hok | hfail
    · exfalso
      have hw := (heater_spec bus).1.mp hok
      rw [h] at hw; exact Bool.false_ne_true hw
    · exact hfail
  · intro h
    rcases (serial_spec bus s0 s1 s2).2.1 with hok | hfail
    · exfalso
      obtain ⟨hw, hr, hc1, hc2, hc3⟩ := (serial_spec bus s0 s1 s2).1.mp hok
      rcases h with h | h | h | h | h
      · rw [h] at hw; exact Bool.false_ne_true hw
      · rw [h] at hr; exact Bool.false_ne_true hr
      · rw [h] at hc1; exact Bool.false_ne_true hc1
      · rw [h] at hc2; exact Bool.false_ne_true hc2
      · rw [h] at hc3; exact Bool.false_ne_true hc3
    · exact hfail

/-- Witness bus for C3: the write fails. -/
def c3_bus : Bus := ⟨false, true, fun _ => 0⟩

/-- Witness for C3: with a failing write, every operation returns
`ESP_FAIL`. -/
theorem claim_C3_witness :
    (sgp41_execute_conditioning c3_bus 1 2 3).ret = ESP_FAIL
    ∧ (sgp41_measure_raw_signals c3_bus 1 2 3 4).ret = ESP_FAIL
    ∧ (sgp41_execute_self_test c3_bus 5).ret = ESP_FAIL
    ∧ (sgp41_turn_heater_off c3_bus).ret = ESP_FAIL
    ∧ (sgp41_get_serial_number c3_bus 6 7 8).ret = ESP_FAIL := by
  obtain ⟨h1, h2, h3, h4, h5⟩ := claim_C3_failure_aborts c3_bus 1 2 3 4 5 6 7 8
  exact ⟨h1 (Or.inl rfl), h2 (Or.inl rfl), h3 (Or.inl rfl), h4 rfl,
    h5 (Or.inl rfl)⟩

/-- C4: for every 9-byte response whose three triplets all pass the CRC
check, `sgp41_get_serial_number` succeeds and returns the three
big-endian words bytes 0-1 → word0, bytes 3-4 → word1,
bytes 6-7 → word2 (bytes 2, 5, 8 being the checksums consumed by the
checks). -/
theorem claim_C4_serial_decoding (bus : Bus) (s0 s1 s2 : Nat)
    (hw : bus.writeOk = true) (hr : bus.readOk = true)
    (h1 : check_crc [bus.rx 0 % 256, bus.rx 1 % 256] (bus.rx 2 % 256) = true)
    (h2 : check_crc [bus.rx 3 % 256, bus.rx 4 % 256] (bus.rx 5 % 256) = true)
    (h3 : check_crc [bus.rx 6 % 256, bus.rx 7 % 256] (bus.rx 8 % 256) = true) :
    (sgp41_get_serial_number bus s0 s1 s2).ret = ESP_OK
    ∧ (sgp41_get_serial_number bus s0 s1 s2).sn0
        = 256 * (bus.rx 0 % 256) + bus.rx 1 % 256
    ∧ (sgp41_get_serial_number bus s0 s1 s2).sn1
        = 256 * (bus.rx 3 % 256) + bus.rx 4 % 256
    ∧ (sgp41_get_serial_number bus s0 s1 s2).sn2
        = 256 * (bus.rx 6 % 256) + bus.rx 7 % 256 := by
  obtain ⟨hiff, _, hval, _⟩ := serial_spec bus s0 s1 s2
  have hok := hiff.mpr ⟨hw, hr, h1, h2, h3⟩
  obtain ⟨e0, e1, e2⟩ := hval hok
  refine ⟨hok, ?_, ?_, ?_⟩
  · rw [e0, be_word_eq _ _ (Nat.mod_lt _ (by norm_num)) (Nat.mod_lt _ (by norm_num))]
  · rw [e1, be_word_eq _ _ (Nat.mod_lt _ (by norm_num)) (Nat.mod_lt _ (by norm_num))]
  · rw [e2, be_word_eq _ _ (Nat.mod_lt _ (by norm_num)) (Nat.mod_lt _ (by norm_num))]

/-- Witness bus for C4: three valid triplets [0, 0, 0x81]. -/
def c4_bus : Bus :=
  ⟨true, true, fun i => [0, 0, 0x81, 0, 0, 0x81, 0, 0, 0x81].getD i 0⟩

/-- Witness for C4 on a concrete all-valid 9-byte response. -/
theorem claim_C4_witness :
    (sgp41_get_serial_number c4_bus 7 8 9).ret = ESP_OK
    ∧ (sgp41_get_serial_number c4_bus 7 8 9).sn0
        = 256 * (c4_bus.rx 0 % 256) + c4_bus.rx 1 % 256
    ∧ (sgp41_get_serial_number c4_bus 7 8 9).sn1
        = 256 * (c4_bus.rx 3 % 256) + c4_bus.rx 4 % 256
    ∧ (sgp41_get_serial_number c4_bus 7 8 9).sn2
        = 256 * (c4_bus.rx 6 % 256) + c4_bus.rx 7 % 256 :=
  claim_C4_serial_decoding c4_bus 7 8 9 rfl rfl (by decide) (by decide)
    (by decide)

/-- C10: whenever an output-producing operation returns `ESP_FAIL`
(write failure, read failure or CRC mismatch), none of the
caller-supplied output locations is written: each keeps its initial
contents. -/
theorem claim_C10_outputs_unwritten_on_failure (bus : Bus)
    (rh t v0 n0 tr0 s0 s1 s2 : Nat) :
    ((sgp41_execute_conditioning bus rh t v0).ret = ESP_FAIL
      → (sgp41_execute_conditioning bus rh t v0).sraw_voc = v0)
    ∧ ((sgp41_measure_raw_signals bus rh t v0 n0).ret = ESP_FAIL
      → (sgp41_measure_raw_signals bus rh t v0 n0).sraw_voc = v0
        ∧ (sgp41_measure_raw_signals bus rh t v0 n0).sraw_nox = n0)
    ∧ ((sgp41_execute_self_test bus tr0).ret = ESP_FAIL
      → (sgp41_execute_self_test bus tr0).test_result = tr0)
    ∧ ((sgp41_get_serial_number bus s0 s1 s2).ret = ESP_FAIL
      → (sgp41_get_serial_number bus s0 s1 s2).sn0 = s0
        ∧ (sgp41_get_serial_number bus s0 s1 s2).sn1 = s1
        ∧ (sgp41_get_serial_number bus s0 s1 s2).sn2 = s2) :=
  ⟨(conditioning_spec bus rh t v0).2.2.2,
   (measure_spec bus rh t v0 n0).2.2.2,
   (self_test_spec bus tr0).2.2.2,
   (serial_spec bus s0 s1 s2).2.2.2⟩

/-- Witness bus for C10: the write fails, so every operation fails. -/
def c10_bus : Bus := ⟨false, true, fun _ => 0⟩

/-- Witness for C10: with a failing write, all outputs keep their
initial contents. -/
theorem claim_C10_witness :
    (sgp41_execute_conditioning c10_bus 1 2 11).sraw_voc = 11
    ∧ ((sgp41_measure_raw_signals c10_bus 1 2 12 13).sraw_voc = 12
        ∧ (sgp41_measure_raw_signals c10_bus 1 2 12 13).sraw_nox = 13)
    ∧ (sgp41_execute_self_test c10_bus 14).test_result = 14
    ∧ ((sgp41_get_serial_number c10_bus 15 16 17).sn0 = 15
        ∧ (sgp41_get_serial_number c10_bus 15 16 17).sn1 = 16
        ∧ (sgp41_get_serial_number c10_bus 15 16 17).sn2 = 17) := by
  obtain ⟨h1, h2, h3, h4⟩ :=
    claim_C10_outputs_unwritten_on_failure c10_bus 1 2 11 13 14 15 16 17
  exact ⟨h1 (by decide), by
    obtain ⟨h1', h2', h3', h4'⟩ :=
      claim_C10_outputs_unwritten_on_failure c10_bus 1 2 12 13 14 15 16 17
    exact ⟨h2' (by decide), ⟨h3' (by decide), h4' (by decide)⟩⟩⟩

/-- A left-shifted one is a nonzero power of two below 256 when the
shift is below 8. -/
lemma one_shiftLeft_lt_256 {j : Nat} (hj : j < 8) : 1 <<< j < 256 := by
  rw [Nat.one_shiftLeft]
  calc 2 ^ j < 2 ^ 8 := Nat.pow_lt_pow_right (by norm_num) hj
    _ = 256 := by norm_num

/-- A left-shifted one is never zero. -/
lemma one_shiftLeft_ne_zero (j : Nat) : 1 <<< j ≠ 0 := by
  rw [Nat.one_shiftLeft]
  exact (Nat.pos_pow_of_pos j (by norm_num)).ne'

/-- C6: for every valid triplet (two data bytes followed by their CRC-8
checksum) and every single-bit flip of any one of its 24 bits, the
flipped triplet fails `check_crc` on its two data bytes against its
third byte. -/
theorem claim_C6_single_bit_flip_detected (d0 d1 j : Nat)
    (h0 : d0 < 256) (h1 : d1 < 256) (hj : j < 24) :
    check_crc [(flip_triplet d0 d1 (generate_crc [d0, d1]) j).1,
               (flip_triplet d0 d1 (generate_crc [d0, d1]) j).2.1]
      (flip_triplet d0 d1 (generate_crc [d0, d1]) j).2.2 = false := by
  unfold flip_triplet
  rcases Nat.lt_or_ge j 8 with hj8 | hj8
  · rw [if_pos hj8]
    dsimp only
    rw [check_crc_eq_false_iff]
    exact generate_crc_two_inj_fst h0
      (Nat.xor_lt_two_pow (n := 8) h0 (one_shiftLeft_lt_256 hj8)) h1
      (xor_ne_self (one_shiftLeft_ne_zero j))
  · rcases Nat.lt_or_ge j 16 with hj16 | hj16
    · rw [if_neg (Nat.not_lt.mpr hj8), if_pos hj16]
      dsimp only
      rw [check_crc_eq_false_iff]
      exact generate_crc_two_inj_snd h0 h1
        (Nat.xor_lt_two_pow (n := 8) h1
          (one_shiftLeft_lt_256 (show j - 8 < 8 by omega)))
        (xor_ne_self (one_shiftLeft_ne_zero (j - 8)))
    · rw [if_neg (Nat.not_lt.mpr hj8), if_neg (Nat.not_lt.mpr hj16)]
      dsimp only
      rw [check_crc_eq_false_iff]
      exact Ne.symm (xor_ne_self (one_shiftLeft_ne_zero (j - 16)))

/-- Witness for C6: flipping bit 0 of the first data byte of the valid
triplet built on [0xBE, 0xEF] makes the check fail. -/
theorem claim_C6_witness :
    (0xBE : Nat) < 256 ∧ (0xEF : Nat) < 256 ∧ (0 : Nat) < 24 ∧
    check_crc [(flip_triplet 0xBE 0xEF (generate_crc [0xBE, 0xEF]) 0).1,
               (flip_triplet 0xBE 0xEF (generate_crc [0xBE, 0xEF]) 0).2.1]
      (flip_triplet 0xBE 0xEF (generate_crc [0xBE, 0xEF]) 0).2.2 = false :=
  ⟨by decide, by decide, by decide,
   claim_C6_single_bit_flip_detected 0xBE 0xEF 0 (by decide) (by decide)
     (by decide)⟩

/-- C8: when the self-test outcome seen by `sgp41_init` differs from
the 0xD400 all-pixels-pass sentinel, initialization does not abort: the
mismatch is only logged and `sgp41_init` still returns `ESP_OK`, for
every bus behaviour. -/
theorem claim_C8_init_soft_self_test (bus_self_test bus_serial : Bus)
    (test_result0 sn0i sn1i sn2i : Nat)
    (_hmismatch : (sgp41_execute_self_test bus_self_test test_result0).test_result
        ≠ 0xD400) :
    sgp41_init true bus_self_test bus_serial test_result0 sn0i sn1i sn2i
      = ESP_OK := by
  unfold sgp41_init
  simp

/-- Witness bus for C8: the self-test response is all zeros, so its CRC
check fails and the reported self-test word stays 0 ≠ 0xD400. -/
def c8_bus : Bus := ⟨true, true, fun _ => 0⟩

/-- Witness for C8: a concrete run whose self-test outcome is not
0xD400 and whose initialization still returns `ESP_OK`. -/
theorem claim_C8_witness :
    (sgp41_execute_self_test c8_bus 0).test_result ≠ 0xD400
    ∧ sgp41_init true c8_bus c8_bus 0 1 2 3 = ESP_OK :=
  ⟨by decide, claim_C8_init_soft_self_test c8_bus c8_bus 0 1 2 3 (by decide)⟩

end SGP41
